import Mathlib

/-!
Shallow embedding of the order-lifecycle / inventory engine of the
sales-management backend (core/models.py, core/views.py,
core/serializers.py).  Monetary amounts (Decimal with two places in the
source) are represented exactly as integers in cents; stock quantities
are integers (Django IntegerField, which may go negative).
-/

namespace SalesManage

/-- Order status enumeration (`Order.ORDER_STATUS_CHOICES`). -/
inductive OStatus
  | pending
  | confirmed
  | shipping
  | completed
  | cancelled
  | refund_requested
  | refunding
  | refunded
deriving DecidableEq, Repr

/-- The "counted" statuses `['confirmed', 'shipping', 'completed']`
used throughout models.py and views.py. -/
def OStatus.isCounted : OStatus → Bool
  | .confirmed => true
  | .shipping => true
  | .completed => true
  | _ => false

/-- Product row: cost price (cents), current stock, sold quantity. -/
structure Product where
  cost_price : Int
  current_stock : Int
  sold_quantity : Int
deriving DecidableEq, Repr

/-- Order row: inputs (quantity, unit price, other costs), the three
derived financial fields, and the status. -/
structure Order where
  quantity : Int
  unit_price : Int
  other_costs : Int
  sales_amount : Int
  total_cost : Int
  gross_profit : Int
  status : OStatus
deriving DecidableEq, Repr

/-- Batch row: the cached `total_profit` aggregate. -/
structure Batch where
  total_profit : Int
deriving DecidableEq, Repr

/-- Stock decrement / sold increment performed when an order in a
counted status reserves `q` units (models.py lines 233-234, 276-277,
296-297; views.py lines 457-458). -/
def Product.reserve (p : Product) (q : Int) : Product :=
  { p with
      current_stock := p.current_stock - q
      sold_quantity := p.sold_quantity + q }

/-- Stock increment / sold decrement performed when a reservation is
released (models.py lines 286-287; views.py lines 464-465). -/
def Product.release (p : Product) (q : Int) : Product :=
  { p with
      current_stock := p.current_stock + q
      sold_quantity := p.sold_quantity - q }

/-- The derived-field computation at the top of `Order.save`
(models.py lines 204-211): `sales_amount = quantity * unit_price`,
`total_cost = cost_price * quantity + other_costs`,
`gross_profit = sales_amount - total_cost`, with `cost_price` read
live from the referenced product. -/
def computeDerived (o : Order) (cost_price : Int) : Order :=
  let sales := o.quantity * o.unit_price
  let total := cost_price * o.quantity + o.other_costs
  { o with
      sales_amount := sales
      total_cost := total
      gross_profit := sales - total }

/-- `Order._handle_status_change` (models.py lines 269-302).
`mem` is the in-memory instance (`self`), `row` is the already
persisted database row; the `super().save(update_fields=...)` calls in
the fallback branches write the corresponding field of `self` back to
the row.  Returns the resulting database row and product. -/
def Order.handle_status_change (old_status : OStatus) (old_quantity : Int)
    (mem : Order) (row : Order) (p : Product) : Order × Product :=
  if old_status = .pending ∧ mem.status.isCounted = true then
    if p.current_stock ≥ mem.quantity then
      (row, p.reserve mem.quantity)
    else
      ({ row with status := .pending }, p)
  else if old_status.isCounted = true ∧
      (mem.status = .cancelled ∨ mem.status = .refunded) then
    (row, p.release old_quantity)
  else if old_status.isCounted = true ∧ mem.status.isCounted = true ∧
      old_quantity ≠ mem.quantity then
    let diff := mem.quantity - old_quantity
    if p.current_stock ≥ diff then
      (row, p.reserve diff)
    else
      ({ row with quantity := old_quantity }, p)
  else
    (row, p)

/-- `Order.save` on a new instance (`is_new = True`, models.py lines
193-239): compute the derived fields, persist, and if the initial
status is counted either reserve the stock or fall back to `pending`
(persisted via `update_fields=['status']`). -/
def Order.saveNew (mem : Order) (p : Product) : Order × Product :=
  let o := computeDerived mem p.cost_price
  if o.status.isCounted = true then
    if p.current_stock ≥ o.quantity then
      (o, p.reserve o.quantity)
    else
      ({ o with status := .pending }, p)
  else
    (o, p)

/-- `Order.save` on an existing instance (models.py lines 193-243):
recompute the derived fields from the live product cost price, fetch
the old row, persist (`statusOnly = true` models a call with
`update_fields=['status', 'updated_at']`, which persists only the
status; `false` models a full save persisting every field), then run
`_handle_status_change` when the status changed. -/
def Order.saveExisting (mem : Order) (dbRow : Order) (p : Product)
    (statusOnly : Bool) : Order × Product :=
  let comp := computeDerived mem p.cost_price
  let row := if statusOnly then { dbRow with status := comp.status } else comp
  if dbRow.status ≠ comp.status then
    Order.handle_status_change dbRow.status dbRow.quantity comp row p
  else
    (row, p)

/-- Orders of a batch in one of the counted statuses — the filter
`status__in=['confirmed', 'shipping', 'completed']` in
`Batch.calculate_total_profit` (models.py lines 97-99). -/
def countedOrders (orders : List Order) : List Order :=
  orders.filter (fun o => o.status.isCounted)

/-- `Batch.calculate_total_profit` (models.py lines 91-120): aggregate
the gross profit of the counted orders (`Sum` returns `None` on an
empty queryset, mapped to zero) and write the batch row only when the
value changed.  The boolean records whether a write was performed. -/
def Batch.calculate_total_profit (b : Batch) (orders : List Order) :
    Batch × Bool :=
  let filtered := countedOrders orders
  let total := if filtered.isEmpty then 0 else (filtered.map Order.gross_profit).sum
  if b.total_profit ≠ total then
    ({ b with total_profit := total }, true)
  else
    (b, false)

/-- Order creation followed by the batch-profit recomputation that
`Order.save` and the `post_save` signal trigger (models.py lines
245-251 and 360-368); `others` are the batch's other orders. -/
def Order.saveNewWithBatch (mem : Order) (p : Product) (b : Batch)
    (others : List Order) : Order × Product × Batch :=
  let res := Order.saveNew mem p
  let b1 := (Batch.calculate_total_profit b (res.1 :: others)).1
  (res.1, res.2, b1)

/-- `OrderCreateSerializer.validate` (serializers.py lines 282-291):
reject a counted-status creation whose product lacks stock. -/
def OrderCreateSerializer.validate (st : OStatus) (p : Product)
    (quantity : Int) : Except String Unit :=
  if st.isCounted = true ∧ p.current_stock < quantity then
    .error "insufficient stock"
  else
    .ok ()

/-- The single-order create endpoint: `OrderViewSet.create` runs
`OrderCreateSerializer` validation and then `Order.save` on the new
instance (views.py `perform_create`). -/
def createOrderAPI (mem : Order) (p : Product) :
    Except String (Order × Product) :=
  match OrderCreateSerializer.validate mem.status p mem.quantity with
  | .error e => .error e
  | .ok _ => .ok (Order.saveNew mem p)

/-- `OrderViewSet.update_status` (views.py lines 436-473): the view
pre-checks and mutates the product stock itself for the
pending-to-counted and counted-to-cancelled/refunded transitions, then
sets the new status and calls
`order.save(update_fields=['status', 'updated_at'])`, which runs
`_handle_status_change` again on the same in-memory product. -/
def OrderViewSet.update_status (dbRow : Order) (p : Product)
    (new_status : OStatus) : Except String (Order × Product) :=
  let old_status := dbRow.status
  if old_status = .pending ∧ new_status.isCounted = true then
    if p.current_stock < dbRow.quantity then
      .error "insufficient stock"
    else
      let p1 := p.reserve dbRow.quantity
      .ok (Order.saveExisting { dbRow with status := new_status } dbRow p1 true)
  else if old_status.isCounted = true ∧
      (new_status = .cancelled ∨ new_status = .refunded) then
    let p1 := p.release dbRow.quantity
    .ok (Order.saveExisting { dbRow with status := new_status } dbRow p1 true)
  else
    .ok (Order.saveExisting { dbRow with status := new_status } dbRow p true)

/-- Stock-movement operation types (`StockRecord.OPERATION_CHOICES`). -/
inductive OpType
  | op_in
  | op_out
  | adjust
deriving DecidableEq, Repr

/-- Stock record row (core fields of the `StockRecord` model). -/
structure StockRecord where
  operation_type : OpType
  quantity : Int
  before_stock : Int
  after_stock : Int
deriving DecidableEq, Repr

/-- `StockRecord.save` (models.py lines 332-354): on a new record,
snapshot `before_stock`, compute the new stock (`in` adds, `out`
clamps at zero, `adjust` takes `quantity` as the new absolute stock),
persist it on the product, and store both snapshots on the record. -/
def StockRecord.save (r : StockRecord) (p : Product) (isNew : Bool) :
    StockRecord × Product :=
  if isNew then
    let new_stock :=
      match r.operation_type with
      | .op_in => p.current_stock + r.quantity
      | .op_out => max 0 (p.current_stock - r.quantity)
      | .adjust => r.quantity
    let r1 := { r with
      before_stock := p.current_stock
      after_stock := new_stock }
    (r1, { p with current_stock := new_stock })
  else
    (r, p)

/-- `StockRecordCreateSerializer.validate` (serializers.py lines
379-394): for `adjust` it requires a non-negative `after_stock` input
field; for the other operations it checks `out` against the current
stock and requires a positive quantity. -/
def StockRecordCreateSerializer.validate (op : OpType) (quantity : Int)
    (after_stock : Option Int) (p : Product) : Except String Unit :=
  if op = .adjust then
    match after_stock with
    | none => .error "adjust requires after_stock"
    | some a => if a < 0 then .error "negative after_stock" else .ok ()
  else
    if op = .op_out ∧ quantity > p.current_stock then
      .error "out exceeds stock"
    else if quantity ≤ 0 then
      .error "quantity must be positive"
    else
      .ok ()

/-- The stock-record create endpoint: serializer validation followed by
`StockRecord.save` on the new record (the client-supplied `after_stock`
is overwritten by `save`). -/
def createStockRecordAPI (op : OpType) (quantity : Int)
    (after_stock : Option Int) (p : Product) :
    Except String (StockRecord × Product) :=
  match StockRecordCreateSerializer.validate op quantity after_stock p with
  | .error e => .error e
  | .ok _ =>
      let r0 : StockRecord :=
        { operation_type := op
          quantity := quantity
          before_stock := 0
          after_stock := after_stock.getD 0 }
      .ok (StockRecord.save r0 p true)

/-- The consistency predicate of the three derived financial fields of
an order, relative to a product cost price. -/
def derivedConsistent (o : Order) (cost : Int) : Prop :=
  o.sales_amount = o.quantity * o.unit_price ∧
  o.total_cost = cost * o.quantity + o.other_costs ∧
  o.gross_profit = o.sales_amount - o.total_cost

/-- A fresh in-memory order with the given status, quantity, unit
price and other costs (derived fields zeroed, as before a save). -/
def mkOrder (st : OStatus) (q price other : Int) : Order :=
  { quantity := q
    unit_price := price
    other_costs := other
    sales_amount := 0
    total_cost := 0
    gross_profit := 0
    status := st }

/-- C1 counterexample: a full save that changes a confirmed order
(quantity 5) to shipping with quantity 10 on a product with stock 1
takes the insufficient-stock quantity-revert branch of
`_handle_status_change`: the persisted row keeps quantity 5 but its
`sales_amount` was computed from quantity 10, so after this save
`sales_amount ≠ quantity × unit_price`. -/
theorem order_save_quantity_revert_breaks_derived :
    ((Order.saveExisting (mkOrder .shipping 10 10 0) (mkOrder .confirmed 5 10 0)
        ⟨2, 1, 5⟩ false).1).sales_amount ≠
      ((Order.saveExisting (mkOrder .shipping 10 10 0) (mkOrder .confirmed 5 10 0)
        ⟨2, 1, 5⟩ false).1).quantity *
      ((Order.saveExisting (mkOrder .shipping 10 10 0) (mkOrder .confirmed 5 10 0)
        ⟨2, 1, 5⟩ false).1).unit_price := by
  decide

/-- C3 counterexample: the single-order create endpoint rejects a
confirmed-status creation with quantity 5 on a product with stock 3
(`OrderCreateSerializer.validate` raises before `Order.save` runs), so
the creation as a whole is rejected rather than persisted as pending. -/
theorem order_create_api_rejects_insufficient_stock :
    createOrderAPI (mkOrder .confirmed 5 10 0) ⟨2, 3, 0⟩ =
      .error "insufficient stock" := by
  rfl

/-- C4: evaluating `OrderViewSet.update_status` on a pending order of
quantity 5 whose product has stock 10 and sold 0, transitioning to
confirmed: the view reserves 5 units and `Order.save` reserves 5 more,
leaving stock 0 and sold 10 — double the claimed reservation.  With
stock 7 the second reservation fails, so the order is flipped back to
pending while 5 units stay consumed (stock 2, sold 5).  The rejection
half behaves as claimed: with stock 2 the transition errors out. -/
theorem update_status_pending_confirm_double_reserves :
    OrderViewSet.update_status (mkOrder .pending 5 10 0) ⟨2, 10, 0⟩ .confirmed =
      .ok ({ mkOrder .pending 5 10 0 with status := .confirmed }, ⟨2, 0, 10⟩) ∧
    OrderViewSet.update_status (mkOrder .pending 5 10 0) ⟨2, 7, 0⟩ .confirmed =
      .ok (mkOrder .pending 5 10 0, ⟨2, 2, 5⟩) ∧
    OrderViewSet.update_status (mkOrder .pending 5 10 0) ⟨2, 2, 0⟩ .confirmed =
      .error "insufficient stock" := by
  refine ⟨rfl, rfl, rfl⟩

/-- C5: evaluating `OrderViewSet.update_status` on a confirmed order
of quantity 5 whose product has stock 0 and sold 5, transitioning to
cancelled: the view releases 5 units and `_handle_status_change`
releases 5 more, leaving stock 10 and `sold_quantity = -5` instead of
the claimed stock 5, sold 0. -/
theorem update_status_cancel_double_releases :
    OrderViewSet.update_status (mkOrder .confirmed 5 10 0) ⟨2, 0, 5⟩ .cancelled =
      .ok ({ mkOrder .confirmed 5 10 0 with status := .cancelled }, ⟨2, 10, -5⟩) := by
  rfl

/-- C6 counterexample: a full save of a confirmed order changing only
its quantity from 5 to 8 (status unchanged, product stock 100) never
reaches `_handle_status_change`, so no stock delta is applied: the
product is returned unchanged instead of having 3 more units
reserved. -/
theorem order_update_pure_quantity_change_leaves_stock :
    (Order.saveExisting (mkOrder .confirmed 8 10 0) (mkOrder .confirmed 5 10 0)
        ⟨2, 100, 5⟩ false).2 = ⟨2, 100, 5⟩ := by
  decide

/-- C7 counterexample: an order created at cost price 10 (quantity 2,
`total_cost = 20`) is saved again after the product cost price is
edited to 30; the save re-reads the live cost price and the persisted
`total_cost` becomes 60 — the later cost change does alter the
existing order's `total_cost`. -/
theorem cost_price_change_alters_total_cost :
    (Order.saveExisting
        ((Order.saveNew (mkOrder .pending 2 50 0) ⟨10, 100, 0⟩).1)
        ((Order.saveNew (mkOrder .pending 2 50 0) ⟨10, 100, 0⟩).1)
        ⟨30, 100, 0⟩ false).1.total_cost ≠
      ((Order.saveNew (mkOrder .pending 2 50 0) ⟨10, 100, 0⟩).1).total_cost := by
  decide

/-- C9: evaluating the stock-record create pipeline on an `adjust`
request with quantity −5 and supplied `after_stock = 0` on a product
with stock 10: the serializer validates the `after_stock` field (which
`StockRecord.save` then overwrites) instead of the quantity that
becomes the new stock, so the request is accepted, a record is
created, and `current_stock` is driven to −5. -/
theorem stock_adjust_negative_target_accepted :
    createStockRecordAPI .adjust (-5) (some 0) ⟨2, 10, 0⟩ =
      .ok (⟨.adjust, -5, 10, -5⟩, ⟨2, -5, 0⟩) := by
  rfl

lemma counted_ne_pending {s : OStatus} (h : s.isCounted = true) : s ≠ .pending := by
  cases s <;> simp_all [OStatus.isCounted]

lemma counted_ne_cancelled_refunded {s : OStatus} (h : s.isCounted = true) :
    s ≠ .cancelled ∧ s ≠ .refunded := by
  cases s <;> simp_all [OStatus.isCounted]

/-- C1 (amended): every new-order save, and every full save of an
existing order that does not hit the counted-to-counted
quantity-change insufficient-stock revert branch, leaves the persisted
row with `sales_amount = quantity × unit_price`,
`total_cost = cost_price × quantity + other_costs` and
`gross_profit = sales_amount − total_cost`, the cost price being the
product's live cost price at the save; the fields are recomputed
regardless of the in-memory values, so they are not independently
settable. -/
theorem order_save_recomputes_derived_fields (mem dbRow : Order) (p : Product)
    (h : ¬(dbRow.status ≠ mem.status ∧ dbRow.status.isCounted = true ∧
        mem.status.isCounted = true ∧ dbRow.quantity ≠ mem.quantity ∧
        p.current_stock < mem.quantity - dbRow.quantity)) :
    derivedConsistent (Order.saveNew mem p).1 p.cost_price ∧
    derivedConsistent (Order.saveExisting mem dbRow p false).1 p.cost_price := by
  constructor
  · simp only [Order.saveNew, computeDerived, derivedConsistent]
    split_ifs <;> simp
  · simp only [Order.saveExisting, Order.handle_status_change, computeDerived,
      derivedConsistent]
    split_ifs <;> simp_all

/-- Witness for `order_save_recomputes_derived_fields`. -/
theorem order_save_recomputes_derived_fields_witness :
    derivedConsistent
      (Order.saveNew (mkOrder .confirmed 5 10 0) ⟨2, 10, 0⟩).1 2 ∧
    derivedConsistent
      (Order.saveExisting (mkOrder .shipping 5 10 0) (mkOrder .confirmed 5 10 0)
        ⟨2, 10, 0⟩ false).1 2 :=
  order_save_recomputes_derived_fields (mkOrder .shipping 5 10 0)
    (mkOrder .confirmed 5 10 0) ⟨2, 10, 0⟩ (by decide)

/-- C2: after any recomputation, `Batch.total_profit` equals the sum
of `gross_profit` over the batch's orders in a counted status (zero
when there are none); a second recomputation with the same orders
returns the same batch and performs no write; and the recomputation
triggered by an order creation establishes the same invariant over the
enlarged order set. -/
theorem batch_profit_invariant_and_idempotent (b : Batch) (orders : List Order)
    (mem : Order) (p : Product) (others : List Order) :
    (Batch.calculate_total_profit b orders).1.total_profit =
      ((orders.filter (fun o => o.status.isCounted)).map Order.gross_profit).sum ∧
    Batch.calculate_total_profit (Batch.calculate_total_profit b orders).1 orders =
      ((Batch.calculate_total_profit b orders).1, false) ∧
    (Order.saveNewWithBatch mem p b others).2.2.total_profit =
      ((((Order.saveNewWithBatch mem p b others).1 :: others).filter
          (fun o => o.status.isCounted)).map Order.gross_profit).sum := by
  have keyT : ∀ os : List Order,
      (if (countedOrders os).isEmpty then (0 : Int)
       else ((countedOrders os).map Order.gross_profit).sum) =
        ((os.filter (fun o => o.status.isCounted)).map Order.gross_profit).sum := by
    intro os
    rcases hc : countedOrders os with _ | ⟨o, os2⟩
    · rw [show os.filter (fun o => o.status.isCounted) = [] from hc]
      simp
    · rw [show os.filter (fun o => o.status.isCounted) = o :: os2 from hc]
      simp
  have key : ∀ (b2 : Batch) (os : List Order),
      (Batch.calculate_total_profit b2 os).1.total_profit =
        ((os.filter (fun o => o.status.isCounted)).map Order.gross_profit).sum := by
    intro b2 os
    have hT := keyT os
    simp only [Batch.calculate_total_profit]
    generalize hg : (if (countedOrders os).isEmpty then (0 : Int)
       else ((countedOrders os).map Order.gross_profit).sum) = T at hT ⊢
    split_ifs with hw
    · exact hT
    · push_neg at hw
      show b2.total_profit = _
      rw [hw]
      exact hT
  have hsecond : ∀ b2 : Batch,
      b2.total_profit =
        ((orders.filter (fun o => o.status.isCounted)).map Order.gross_profit).sum →
      Batch.calculate_total_profit b2 orders = (b2, false) := by
    intro b2 hb2
    have hT : b2.total_profit =
        (if (countedOrders orders).isEmpty then (0 : Int)
         else ((countedOrders orders).map Order.gross_profit).sum) :=
      hb2.trans (keyT orders).symm
    simp only [Batch.calculate_total_profit]
    rw [if_neg (fun hne => hne hT)]
  refine ⟨key b orders, hsecond _ (key b orders), ?_⟩
  simp only [Order.saveNewWithBatch]
  exact key b ((Order.saveNew mem p).1 :: others)

/-- C3 (amended): at the `Order.save` level — the path used by the
batch add-orders endpoint — a new counted-status order with sufficient
stock reserves `quantity` units, and with insufficient stock is
persisted with status forced to `pending` and the product untouched;
the single-order create endpoint, however, rejects the insufficient
case before the save (see the counterexample). -/
theorem order_saveNew_insufficient_stock_falls_back_pending (mem : Order)
    (p : Product) (hc : mem.status.isCounted = true) :
    (p.current_stock ≥ mem.quantity →
      (Order.saveNew mem p).1 = computeDerived mem p.cost_price ∧
      (Order.saveNew mem p).2 = p.reserve mem.quantity) ∧
    (p.current_stock < mem.quantity →
      (Order.saveNew mem p).1 =
        { computeDerived mem p.cost_price with status := .pending } ∧
      (Order.saveNew mem p).2 = p) := by
  constructor <;> intro hs <;>
    simp only [Order.saveNew, computeDerived] <;>
    split_ifs <;> simp_all <;> omega

/-- Witness for `order_saveNew_insufficient_stock_falls_back_pending`:
the spec scenario — stock 3, quantity 5, status confirmed. -/
theorem order_saveNew_insufficient_stock_falls_back_pending_witness :
    (Order.saveNew (mkOrder .confirmed 5 10 0) ⟨2, 3, 0⟩).1 =
      { computeDerived (mkOrder .confirmed 5 10 0) 2 with status := .pending } ∧
    (Order.saveNew (mkOrder .confirmed 5 10 0) ⟨2, 3, 0⟩).2 = ⟨2, 3, 0⟩ :=
  (order_saveNew_insufficient_stock_falls_back_pending (mkOrder .confirmed 5 10 0)
    ⟨2, 3, 0⟩ (by decide)).2 (by decide)

/-- C6 (amended): a full save that keeps the status unchanged
recomputes the derived financial fields but applies no stock delta,
whatever the quantity change; the delta `new_qty − old_qty` is applied
only when the same save also moves the status between two different
counted statuses, and in that case insufficient stock for the delta
does not block the save — the quantity is reverted to the old value
while the financial fields, computed from the new quantity, are
kept. -/
theorem order_update_quantity_delta_only_on_status_change (mem dbRow : Order)
    (p : Product) :
    (dbRow.status = mem.status →
      Order.saveExisting mem dbRow p false = (computeDerived mem p.cost_price, p)) ∧
    (dbRow.status ≠ mem.status → dbRow.status.isCounted = true →
      mem.status.isCounted = true → dbRow.quantity ≠ mem.quantity →
      (p.current_stock ≥ mem.quantity - dbRow.quantity →
        Order.saveExisting mem dbRow p false =
          (computeDerived mem p.cost_price,
            p.reserve (mem.quantity - dbRow.quantity))) ∧
      (p.current_stock < mem.quantity - dbRow.quantity →
        Order.saveExisting mem dbRow p false =
          ({ computeDerived mem p.cost_price with quantity := dbRow.quantity },
            p))) := by
  constructor
  · intro h
    simp [Order.saveExisting, computeDerived, h]
  · intro h1 h2 h3 h4
    have hp := counted_ne_pending h2
    have hcr := counted_ne_cancelled_refunded h3
    constructor <;> intro h5 <;>
      simp only [Order.saveExisting, Order.handle_status_change, computeDerived] <;>
      split_ifs <;> simp_all <;> omega

/-- Witness for `order_update_quantity_delta_only_on_status_change`. -/
theorem order_update_quantity_delta_only_on_status_change_witness :
    Order.saveExisting (mkOrder .confirmed 8 10 0) (mkOrder .confirmed 5 10 0)
        ⟨2, 100, 5⟩ false =
      (computeDerived (mkOrder .confirmed 8 10 0) 2, ⟨2, 100, 5⟩) ∧
    Order.saveExisting (mkOrder .shipping 8 10 0) (mkOrder .confirmed 5 10 0)
        ⟨2, 100, 5⟩ false =
      (computeDerived (mkOrder .shipping 8 10 0) 2,
        Product.reserve ⟨2, 100, 5⟩ (8 - 5)) ∧
    Order.saveExisting (mkOrder .shipping 8 10 0) (mkOrder .confirmed 5 10 0)
        ⟨2, 1, 5⟩ false =
      ({ computeDerived (mkOrder .shipping 8 10 0) 2 with quantity := 5 },
        ⟨2, 1, 5⟩) :=
  ⟨(order_update_quantity_delta_only_on_status_change (mkOrder .confirmed 8 10 0)
      (mkOrder .confirmed 5 10 0) ⟨2, 100, 5⟩).1 rfl,
   ((order_update_quantity_delta_only_on_status_change (mkOrder .shipping 8 10 0)
      (mkOrder .confirmed 5 10 0) ⟨2, 100, 5⟩).2 (by decide) (by decide) (by decide)
      (by decide)).1 (by decide),
   ((order_update_quantity_delta_only_on_status_change (mkOrder .shipping 8 10 0)
      (mkOrder .confirmed 5 10 0) ⟨2, 1, 5⟩).2 (by decide) (by decide) (by decide)
      (by decide)).2 (by decide)⟩

/-- C7 (amended): every save — new or full update — computes
`total_cost` from the product's cost price as read live at that save,
not from a snapshot taken at creation: after a save against a product
whose cost price has changed, `total_cost` reflects the new cost price
(see the counterexample for a concrete retroactive change). -/
theorem order_save_total_cost_from_live_cost_price (mem dbRow : Order)
    (p : Product) :
    ((Order.saveNew mem p).1).total_cost =
      p.cost_price * mem.quantity + mem.other_costs ∧
    ((Order.saveExisting mem dbRow p false).1).total_cost =
      p.cost_price * mem.quantity + mem.other_costs := by
  constructor <;>
    simp only [Order.saveNew, Order.saveExisting, Order.handle_status_change,
      computeDerived] <;>
    split_ifs <;> simp_all

/-- C8: a new stock record snapshots `before_stock` as the product's
current stock at call time; `after_stock` is `before + quantity` for
`in`, `max 0 (before − quantity)` for `out` (never negative), and the
supplied target value (the `quantity` field) for `adjust`; the
product's stock is persisted equal to `after_stock`, the other product
fields untouched. -/
theorem stock_record_save_snapshots (r : StockRecord) (p : Product) :
    (StockRecord.save r p true).1.before_stock = p.current_stock ∧
    (StockRecord.save r p true).1.after_stock =
      (match r.operation_type with
       | .op_in => p.current_stock + r.quantity
       | .op_out => max 0 (p.current_stock - r.quantity)
       | .adjust => r.quantity) ∧
    (StockRecord.save r p true).2.current_stock =
      (StockRecord.save r p true).1.after_stock ∧
    (r.operation_type = .op_out → 0 ≤ (StockRecord.save r p true).1.after_stock) ∧
    (StockRecord.save r p true).2.cost_price = p.cost_price ∧
    (StockRecord.save r p true).2.sold_quantity = p.sold_quantity := by
  obtain ⟨op, q, bs, as⟩ := r
  cases op <;> simp [StockRecord.save]

/-- Witness for `stock_record_save_snapshots`: the spec scenario — an
`out` movement of 20 on a product with stock 5 clamps to 0. -/
theorem stock_record_save_snapshots_witness :
    (StockRecord.save ⟨.op_out, 20, 0, 0⟩ ⟨2, 5, 0⟩ true).1.before_stock = 5 ∧
    0 ≤ (StockRecord.save ⟨.op_out, 20, 0, 0⟩ ⟨2, 5, 0⟩ true).1.after_stock :=
  ⟨(stock_record_save_snapshots ⟨.op_out, 20, 0, 0⟩ ⟨2, 5, 0⟩).1,
   (stock_record_save_snapshots ⟨.op_out, 20, 0, 0⟩ ⟨2, 5, 0⟩).2.2.2.1 rfl⟩

/-- C10: a status transition through `OrderViewSet.update_status` that
is neither uncounted-to-counted nor counted-to-cancelled/refunded
(quantity never changes on this endpoint, so the third class is
vacuous) persists the new status and leaves the product — both
`current_stock` and `sold_quantity` — unchanged; consequently the
refund path counted → refund_requested → refunding → refunded never
releases the reservation. -/
theorem update_status_no_stock_effect_outside_classes (dbRow : Order)
    (p : Product) (new_status : OStatus) :
    (¬(dbRow.status.isCounted = false ∧ new_status.isCounted = true) →
      ¬(dbRow.status.isCounted = true ∧
        (new_status = .cancelled ∨ new_status = .refunded)) →
      OrderViewSet.update_status dbRow p new_status =
        .ok ({ dbRow with status := new_status }, p)) ∧
    (dbRow.status.isCounted = true →
      OrderViewSet.update_status dbRow p .refund_requested =
        .ok ({ dbRow with status := .refund_requested }, p) ∧
      OrderViewSet.update_status { dbRow with status := .refund_requested } p
          .refunding =
        .ok ({ dbRow with status := .refunding }, p) ∧
      OrderViewSet.update_status { dbRow with status := .refunding } p .refunded =
        .ok ({ dbRow with status := .refunded }, p)) := by
  obtain ⟨q, up, oc, sa, tc, gp, st⟩ := dbRow
  cases st <;> cases new_status <;>
    simp_all [OrderViewSet.update_status, Order.saveExisting,
      Order.handle_status_change, computeDerived, OStatus.isCounted]

/-- Witness for `update_status_no_stock_effect_outside_classes`. -/
theorem update_status_no_stock_effect_outside_classes_witness :
    OrderViewSet.update_status (mkOrder .confirmed 5 10 0) ⟨2, 0, 5⟩
        .refund_requested =
      .ok ({ mkOrder .confirmed 5 10 0 with status := .refund_requested },
        ⟨2, 0, 5⟩) ∧
    OrderViewSet.update_status { mkOrder .confirmed 5 10 0 with
        status := .refunding } ⟨2, 0, 5⟩ .refunded =
      .ok ({ mkOrder .confirmed 5 10 0 with status := .refunded }, ⟨2, 0, 5⟩) :=
  ⟨(update_status_no_stock_effect_outside_classes (mkOrder .confirmed 5 10 0)
      ⟨2, 0, 5⟩ .refund_requested).1 (by decide) (by decide),
   ((update_status_no_stock_effect_outside_classes (mkOrder .confirmed 5 10 0)
      ⟨2, 0, 5⟩ .refund_requested).2 (by decide)).2.2⟩

end SalesManage
